import Mathlib

/-!
Formal model of the forecasting pipeline in `ml/forecast.py`.

Numeric values are modelled as exact rationals (`ℚ`); Python floats are
idealised as exact arithmetic.  Python's `round(x, d)` rounds half to even,
modelled by `roundTo`.  Two quantities in the source are square roots of
rational expressions (`pandas.Series.std()` in the anomaly detector and
`numpy.std` in the baseline fitter); since a square root of a rational is not
rational in general, those two standard deviations are passed to the model as
explicit parameters, and theorems that depend on their value carry the
defining hypotheses (`std ≥ 0` and `std ^ 2 = variance`).

The external model-fitting libraries (`prophet`, `pmdarima`) are not part of
the repository; their outcome on the prepared series is modelled as an oracle
(`Oracles`): either a raw triple of prediction/bound lists, or a raised
exception.  Everything the repository's own code does with those outcomes
(clamping, selection, fallback, assembly) is modelled from the source.
-/

namespace Forecast

/-! ## Rounding (Python `round`, half to even) -/

/-- Round a rational to the nearest integer, ties to even
(the behaviour of Python's built-in `round`). -/
def rhe (x : ℚ) : ℤ :=
  if x - ⌊x⌋ < 1/2 then ⌊x⌋
  else if 1/2 < x - ⌊x⌋ then ⌊x⌋ + 1
  else if ⌊x⌋ % 2 = 0 then ⌊x⌋ else ⌊x⌋ + 1

/-- `round(x, d)` from Python: round half to even at `d` decimal places. -/
def roundTo (d : Nat) (x : ℚ) : ℚ := (rhe (x * 10 ^ d) : ℚ) / 10 ^ d

/-! ## Basic statistics -/

/-- `np.mean` / `Series.mean`: arithmetic mean (0 on the empty list,
which the source never hits on the paths modelled here). -/
def mean (xs : List ℚ) : ℚ := xs.sum / xs.length

/-- `Series.std() ^ 2` (pandas, `ddof = 1`): sample variance. -/
def sampleVar (xs : List ℚ) : ℚ :=
  (xs.map (fun x => (x - mean xs) ^ 2)).sum / ((xs.length : ℚ) - 1)

/-- `np.std ^ 2` (`ddof = 0`): population variance. -/
def popVar (xs : List ℚ) : ℚ :=
  (xs.map (fun x => (x - mean xs) ^ 2)).sum / (xs.length : ℚ)

/-! ## Configuration constants (`ForecastConfig`) -/

namespace ForecastConfig

def SEASONAL_THRESHOLD : Nat := 52
def MIN_ARIMA_THRESHOLD : Nat := 16
def HIGH_CONFIDENCE_MAPE : ℚ := 15
def MEDIUM_CONFIDENCE_MAPE : ℚ := 30
def ZSCORE_THRESHOLD : ℚ := 3
def MIN_BACKTEST_WINDOWS : Nat := 2
def BACKTEST_STEP : Nat := 1

end ForecastConfig

/-! ## Anomaly detection (`detect_and_handle_anomalies`, z-score method)

`std` is the sample standard deviation `series.std()` of the input, supplied
as a parameter (see the module comment).  A point is flagged when
`|value - mean| / std > 3`; with `std > 0` this is `|value - mean| > 3 * std`,
and when `std = 0` the pandas z-scores are `0/0 = NaN`, so no point is
flagged — captured by the `0 < std` conjunct.  Flagged points are replaced by
`np.minimum(value, mean + 2 * std)`. -/

/-- The anomaly mask for one value. -/
def zAnomaly (mu std x : ℚ) : Bool :=
  0 < std ∧ ForecastConfig.ZSCORE_THRESHOLD * std < |x - mu|

/-- `detect_and_handle_anomalies(series, method="zscore")`:
returns the cleaned series and the list of anomalous indices. -/
def detect_and_handle_anomalies (series : List ℚ) (std : ℚ) :
    List ℚ × List Nat :=
  if series.length < 4 then (series, [])
  else
    let mu := mean series
    let cap := mu + 2 * std
    (series.map (fun x => if zAnomaly mu std x then min x cap else x),
     (List.range series.length).filter (fun i => zAnomaly mu std (series.getD i 0)))

/-! ## Ordinary least squares (`sklearn.linear_model.LinearRegression`)

The source fits `y` against the week index `0, 1, …, n-1`.  For `n ≥ 2` the
least-squares line is given by the closed formulas below; for `n = 1` the
centred design matrix is zero and `lstsq` returns coefficient `0` with
intercept `mean y`, which the `den = 0` branch reproduces. -/

def olsSlope (ys : List ℚ) : ℚ :=
  let n : ℚ := ys.length
  let xs : List ℚ := (List.range ys.length).map (fun i => (i : ℚ))
  let sx := xs.sum
  let sy := ys.sum
  let sxx := (xs.map (fun x => x ^ 2)).sum
  let sxy := ((xs.zip ys).map (fun p => p.1 * p.2)).sum
  let den := n * sxx - sx ^ 2
  if den = 0 then 0 else (n * sxy - sx * sy) / den

def olsIntercept (ys : List ℚ) : ℚ :=
  (ys.sum - olsSlope ys * ((List.range ys.length).map (fun i => (i : ℚ))).sum)
    / ys.length

/-- Prediction of the fitted line at (week) index `t`. -/
def olsPredict (ys : List ℚ) (t : Nat) : ℚ := olsIntercept ys + olsSlope ys * t

/-! ## Accuracy metrics (`calculate_accuracy_metrics`) -/

inductive Confidence where
  | HIGH
  | MEDIUM
  | LOW
deriving DecidableEq

/-- The metrics dictionary built by `calculate_accuracy_metrics`.
The source stores `rmse = round(sqrt(mse), 2)`; since no verified claim
concerns the numeric value of `rmse` (only whether it is reported at all),
the model tracks the (unrounded) mean squared error `rmse_sq` instead, to
stay within `ℚ`; its presence/absence is exactly that of `rmse`. -/
structure Metrics where
  mape : ℚ
  rmse_sq : ℚ
  r2 : ℚ
  accuracy : ℚ
  confidence : Confidence
deriving DecidableEq

/-- `calculate_accuracy_metrics(y_true, y_pred)`.  The zero actuals are
substituted by `1e-10` in the MAPE denominator only; `r2` is
`1 - ss_res / ss_tot` when `ss_tot > 0` and `0` otherwise; the confidence
tier is derived from the unrounded MAPE. -/
def calculate_accuracy_metrics (yTrue yPred : List ℚ) : Metrics :=
  let safe := yTrue.map (fun t => if t = 0 then (1 : ℚ) / 10 ^ 10 else t)
  let mape := mean (((yTrue.zip yPred).zip safe).map
    (fun p => |(p.1.1 - p.1.2) / p.2|)) * 100
  let mse := mean ((yTrue.zip yPred).map (fun p => (p.1 - p.2) ^ 2))
  let ssRes := ((yTrue.zip yPred).map (fun p => (p.1 - p.2) ^ 2)).sum
  let ssTot := (yTrue.map (fun t => (t - mean yTrue) ^ 2)).sum
  let r2 := if 0 < ssTot then 1 - ssRes / ssTot else 0
  let accuracy := max 0 (100 - mape)
  let conf :=
    if mape < ForecastConfig.HIGH_CONFIDENCE_MAPE then Confidence.HIGH
    else if mape < ForecastConfig.MEDIUM_CONFIDENCE_MAPE then Confidence.MEDIUM
    else Confidence.LOW
  { mape := roundTo 2 mape
    rmse_sq := mse
    r2 := roundTo 3 r2
    accuracy := roundTo 2 accuracy
    confidence := conf }

/-! ## Rolling-origin backtesting (`rolling_origin_backtest`) -/

/-- The pooled (actual, predicted) pairs over the rolling windows.  Window
`i` splits at `min_train_size + i * BACKTEST_STEP`; the training prefix gets
a fresh linear fit and predicts the next `horizon` points.  The source
`break`s out of the loop at the first window whose test slice is shorter
than `horizon`; as the test slices only shrink with `i`, this is the
`takeWhile` below. -/
def backtestPairs (s : List ℚ) (horizon minTrain numW : Nat) : List (ℚ × ℚ) :=
  ((List.range numW).takeWhile
      (fun i => decide (minTrain + i * ForecastConfig.BACKTEST_STEP + horizon ≤ s.length))).flatMap
    (fun i =>
      let split := minTrain + i * ForecastConfig.BACKTEST_STEP
      let train := s.take split
      let test := (s.drop split).take horizon
      test.zip ((List.range test.length).map (fun j => olsPredict train (train.length + j))))

/-- `rolling_origin_backtest(series, horizon, min_train_size)`:
`none` models the `return None` branches. -/
def rolling_origin_backtest (s : List ℚ) (horizon minTrain : Nat) : Option Metrics :=
  if s.length < minTrain + horizon then none
  else
    let maxW := (s.length - minTrain) / ForecastConfig.BACKTEST_STEP
    let numW := min maxW 8
    if numW < ForecastConfig.MIN_BACKTEST_WINDOWS then none
    else
      let pairs := backtestPairs s horizon minTrain numW
      if pairs.length = 0 then none
      else some (calculate_accuracy_metrics (pairs.map Prod.fst) (pairs.map Prod.snd))

/-! ## Calendar (`pandas.Timestamp` + `timedelta`, `.month` / `.day`)

Dates are days since 1970-01-01.  `civilFromDays` is the standard proleptic
Gregorian conversion, returning `(year, month, day)`. -/

def civilFromDays (n : Nat) : Nat × Nat × Nat :=
  let z := n + 719468
  let era := z / 146097
  let doe := z % 146097
  let yoe := (doe - doe / 1460 + doe / 36524 - doe / 146096) / 365
  let doy := doe - (365 * yoe + yoe / 4 - yoe / 100)
  let mp := (5 * doy + 2) / 153
  let d := doy - (153 * mp + 2) / 5 + 1
  let m := if mp < 10 then mp + 3 else mp - 9
  (yoe + era * 400 + (if m ≤ 2 then 1 else 0), m, d)

/-- The Christmas-boost window of `generate_ml_forecast`:
`date.month == 12 and 18 <= date.day <= 31`. -/
def decBoost (n : Nat) : Bool :=
  let c := civilFromDays n
  c.2.1 = 12 ∧ 18 ≤ c.2.2 ∧ c.2.2 ≤ 31

/-! ## Data model of the pipeline -/

/-- One row of the prepared weekly frame (`weekly_df`): a week-boundary date
(days since 1970-01-01) and the aggregated raw value. -/
structure WeekRow where
  date : Nat
  value : ℚ
deriving DecidableEq

abbrev Weekly := List WeekRow

/-- A raw fitter output: point predictions and the two bound lists,
before any clamping done by the repository code. -/
structure RawFit where
  preds : List ℚ
  lower : List ℚ
  upper : List ℚ
deriving DecidableEq

/-- Outcome of a call into an external fitting library:
a returned triple, or a raised exception. -/
inductive Outcome where
  | ok (r : RawFit)
  | err
deriving DecidableEq

/-- Oracle for the three external fitter calls that `generate_ml_forecast`
can make on the prepared non-zero series: `fit_prophet_model`,
`fit_arima_model(seasonal=True)` and `fit_arima_model(seasonal=False)`.
Each is deterministic in the (fixed) input series, hence a single outcome. -/
structure Oracles where
  prophet : Outcome
  sarimaxSeasonal : Outcome
  arimaNonSeasonal : Outcome
deriving DecidableEq

/-- An accuracy object as placed in the result dictionary.  All four numeric
entries can be `None` in principle (the dictionary is untyped), hence
`Option`; `rmse_sq` stands for the `rmse` key as in `Metrics`. -/
structure AccuracyReport where
  mape : Option ℚ
  rmse_sq : Option ℚ
  r2 : Option ℚ
  accuracy : Option ℚ
  confidence : Confidence
deriving DecidableEq

/-- An entry of the returned `forecast` array.  `week` is the date whose
`'%d %b'` rendering the source stores as the label. -/
structure ForecastPoint where
  week : Nat
  sales : ℚ
  lower : ℚ
  upper : ℚ
deriving DecidableEq

/-- An entry of the returned `historical` array. -/
structure HistPoint where
  date : Nat
  sales : ℚ
deriving DecidableEq

/-- The result dictionary of `generate_ml_forecast`.  `model_used` models
the presence of a `"model_used"` key: `none` when the key is absent. -/
structure ForecastResult where
  historical : List HistPoint
  forecast : List ForecastPoint
  totalForecast : ℚ
  accuracy : AccuracyReport
  model_used : Option String
deriving DecidableEq

/-! ## Model fitters -/

/-- The `np.maximum(·, 0)` clamping applied by every fitter before
returning (`predictions/lower/upper = np.maximum(…, 0)`). -/
def clampFit (r : RawFit) : RawFit :=
  { preds := r.preds.map (fun x => max x 0)
    lower := r.lower.map (fun x => max x 0)
    upper := r.upper.map (fun x => max x 0) }

/-- `fit_prophet_model`: an external library call (oracle), followed by the
repository's own clamping; an exception re-raises (`none`). -/
def fit_prophet_model (o : Outcome) : Option RawFit :=
  match o with
  | .ok r => some (clampFit r)
  | .err => none

/-- `fit_arima_model`: an external library call (oracle; the
`isinstance(forecast_result, tuple)` branch is internal to what the library
returned and is folded into the oracle's triple), followed by the
repository's clamping; an exception re-raises (`none`). -/
def fit_arima_model (o : Outcome) : Option RawFit :=
  match o with
  | .ok r => some (clampFit r)
  | .err => none

/-- `fit_baseline_model(weekly_df, horizon)`: linear regression of the
values on the week index, bounds at `± 1.5 * np.std(y)` (the population
standard deviation is supplied as the parameter `std`), then clamping.
On an empty frame `sklearn`'s `fit` raises (`none`). -/
def fit_baseline_model (ys : List ℚ) (std : ℚ) (horizon : Nat) : Option RawFit :=
  if ys.length = 0 then none
  else
    let preds := (List.range horizon).map (fun i => olsPredict ys (ys.length + i))
    some (clampFit
      { preds := preds
        lower := preds.map (fun p => p - 3/2 * std)
        upper := preds.map (fun p => p + 3/2 * std) })

/-! ## Model selection (`generate_ml_forecast`, step 3)

The nested `try/except` chain of the source, as a function of the usable
(non-zero cleaned) series `ys`, the external oracle `o`, the baseline's
standard deviation `stdB` and the horizon.  Returns the fitted triple, the
`model_used` string, and the `confidence_override` local variable;
`none` models an exception escaping the selection block (only possible from
`fit_baseline_model` on an empty series, which no `except` protects). -/
def selectModel (o : Oracles) (ys : List ℚ) (stdB : ℚ) (horizon : Nat) :
    Option (RawFit × String × Option Confidence) :=
  if ForecastConfig.SEASONAL_THRESHOLD ≤ ys.length then
    match fit_prophet_model o.prophet with
    | some r => some (r, "Prophet (Seasonal)", none)
    | none =>
      match fit_arima_model o.sarimaxSeasonal with
      | some r => some (r, "SARIMAX (Seasonal)", none)
      | none =>
        match fit_arima_model o.arimaNonSeasonal with
        | some r => some (r, "ARIMA (Non-seasonal)", none)
        | none =>
          match fit_baseline_model ys stdB horizon with
          | some r => some (r, "Linear Baseline (Fallback)", some .LOW)
          | none => none
  else if ForecastConfig.MIN_ARIMA_THRESHOLD ≤ ys.length then
    match fit_arima_model o.arimaNonSeasonal with
    | some r => some (r, "ARIMA", none)
    | none =>
      match fit_baseline_model ys stdB horizon with
      | some r => some (r, "Linear Baseline (Fallback)", some .LOW)
      | none => none
  else
    match fit_baseline_model ys stdB horizon with
    | some r => some (r, "Linear Baseline", some .LOW)
    | none => none

/-! ## Pipeline assembly (`generate_ml_forecast`, steps 4 and 5) -/

/-- The cleaned value column `weekly_df['value_cleaned']`. -/
def cleanedValues (w : Weekly) (stdA : ℚ) : List ℚ :=
  (detect_and_handle_anomalies (w.map (fun row => row.value)) stdA).1

/-- `weekly_nonzero['value']`: the cleaned values filtered to `> 0`;
its length is `weekly_points`, the usable-point count. -/
def nonzeroCleaned (w : Weekly) (stdA : ℚ) : List ℚ :=
  (cleanedValues w stdA).filter (fun v => 0 < v)

/-- `weekly_df['date'].max()`. -/
def lastDate (w : Weekly) : Nat := (w.map (fun row => row.date)).foldr max 0

/-- `weekly_df[weekly_df['value'] > 0]['value'].iloc[-1]`, or `0` when no
week has a positive raw value. -/
def lastActualValue (w : Weekly) : ℚ :=
  (((w.filter (fun row => 0 < row.value)).getLast?).map (fun row => row.value)).getD 0

/-- The connector point prepended to the forecast array. -/
def connectorPoint (ld : Nat) (la : ℚ) : ForecastPoint :=
  { week := ld, sales := roundTo 2 la, lower := roundTo 2 la, upper := roundTo 2 la }

/-- The `horizon` forecast entries: entry `i` is dated `i+1` weeks after the
last historical week; entries in the December 18–31 window get the `1.15`
multiplier on all three values, before the 2-decimal rounding. -/
def forecastRows (ld : Nat) (f : RawFit) : List ForecastPoint :=
  ((f.preds.zip (f.lower.zip f.upper)).enum).map
    (fun e =>
      let date := ld + 7 * (e.1 + 1)
      let c : ℚ := if decBoost date then 23/20 else 1
      { week := date
        sales := roundTo 2 (c * e.2.1)
        lower := roundTo 2 (c * e.2.2.1)
        upper := roundTo 2 (c * e.2.2.2) })

/-- The last `n` elements of a list (`DataFrame.tail(n)`). -/
def lastN (n : Nat) {α : Type} (xs : List α) : List α := xs.drop (xs.length - n)

/-- The `historical` array: last 8 rows of `weekly_df[weekly_df['value'] > 0]`
— note: the raw `'value'` column, not `'value_cleaned'`. -/
def historicalRows (w : Weekly) : List HistPoint :=
  (lastN 8 (w.filter (fun row => 0 < row.value))).map
    (fun row => { date := row.date, sales := roundTo 2 row.value })

/-- The accuracy object placed in the result: backtest metrics when
available (confidence replaced by the override when set), otherwise the
null metrics with `accuracy: 0` and the override-or-LOW confidence. -/
def buildAccuracy (bt : Option Metrics) (ov : Option Confidence) : AccuracyReport :=
  match bt with
  | none =>
    { mape := none, rmse_sq := none, r2 := none, accuracy := some 0
      confidence := ov.getD .LOW }
  | some m =>
    { mape := some m.mape, rmse_sq := some m.rmse_sq, r2 := some m.r2
      accuracy := some m.accuracy, confidence := ov.getD m.confidence }

/-- The `try` body of `generate_ml_forecast`: `none` models an exception
reaching the top-level handler.  That happens when the prepared frame has
fewer than 4 weeks (the explicit `raise ValueError`), when the baseline
fitter raises on an empty usable series, or when the forecast loop would
index past the end of a bound list returned by an external fitter
(`IndexError`). -/
def generate_ml_forecast_inner (w : Weekly) (horizon : Nat) (stdA stdB : ℚ)
    (o : Oracles) : Option ForecastResult :=
  if w.length < 4 then none
  else
    let ys := nonzeroCleaned w stdA
    match selectModel o ys stdB horizon with
    | none => none
    | some (fit, _name, ov) =>
      if fit.lower.length < fit.preds.length ∨ fit.upper.length < fit.preds.length then
        none
      else
        let minTrain := max 8 (ys.length / 2)
        let report := buildAccuracy (rolling_origin_backtest ys horizon minTrain) ov
        let ld := lastDate w
        let fc := connectorPoint ld (lastActualValue w) :: forecastRows ld fit
        some
          { historical := historicalRows w
            forecast := fc
            totalForecast := roundTo 2 ((fc.map (fun p => p.sales)).sum)
            accuracy := report
            model_used := none }

/-- The safe fallback dictionary of the top-level `except` handler. -/
def fallbackResult : ForecastResult :=
  { historical := []
    forecast := []
    totalForecast := 0
    accuracy :=
      { mape := none, rmse_sq := none, r2 := none, accuracy := some 0
        confidence := .LOW }
    model_used := none }

/-- `generate_ml_forecast`, starting from the prepared weekly frame:
the `try` body, with every escaping exception replaced by the safe
fallback result. -/
def generate_ml_forecast (w : Weekly) (horizon : Nat) (stdA stdB : ℚ)
    (o : Oracles) : ForecastResult :=
  (generate_ml_forecast_inner w horizon stdA stdB o).getD fallbackResult

/-! ## The selection chain, as stages

Instrumentation of `selectModel`: the four strategies of the fallback
chain, the entry point as a function of the usable-point count, the chain
order, and the list of stages the nested `try/except` structure attempts. -/

inductive Stage where
  | seasonalDecomp
  | seasonalAR
  | nonSeasonalAR
  | baseline
deriving DecidableEq

/-- The fallback chain, most capable first. -/
def chainStages : List Stage :=
  [.seasonalDecomp, .seasonalAR, .nonSeasonalAR, .baseline]

/-- The entry stage chosen from the usable-point count. -/
def entryStage (usable : Nat) : Stage :=
  if ForecastConfig.SEASONAL_THRESHOLD ≤ usable then .seasonalDecomp
  else if ForecastConfig.MIN_ARIMA_THRESHOLD ≤ usable then .nonSeasonalAR
  else .baseline

/-- The minimum-sample gate of each stage (spec §4.3). -/
def stageGate : Stage → Nat
  | .seasonalDecomp => ForecastConfig.SEASONAL_THRESHOLD
  | .seasonalAR => ForecastConfig.SEASONAL_THRESHOLD
  | .nonSeasonalAR => ForecastConfig.MIN_ARIMA_THRESHOLD
  | .baseline => 0

def Outcome.isOk : Outcome → Bool
  | .ok _ => true
  | .err => false

/-- Whether the fitter of a stage fails on the prepared series
(the baseline never fails in the selector's sense). -/
def stageFails (o : Oracles) : Stage → Bool
  | .seasonalDecomp => !o.prophet.isOk
  | .seasonalAR => !o.sarimaxSeasonal.isOk
  | .nonSeasonalAR => !o.arimaNonSeasonal.isOk
  | .baseline => false

/-- The stages `selectModel` attempts, in order, transcribed from the
nested `try/except` blocks of the source. -/
def attemptedStages (usable : Nat) (o : Oracles) : List Stage :=
  if ForecastConfig.SEASONAL_THRESHOLD ≤ usable then
    if o.prophet.isOk then [.seasonalDecomp]
    else if o.sarimaxSeasonal.isOk then [.seasonalDecomp, .seasonalAR]
    else if o.arimaNonSeasonal.isOk then
      [.seasonalDecomp, .seasonalAR, .nonSeasonalAR]
    else [.seasonalDecomp, .seasonalAR, .nonSeasonalAR, .baseline]
  else if ForecastConfig.MIN_ARIMA_THRESHOLD ≤ usable then
    if o.arimaNonSeasonal.isOk then [.nonSeasonalAR]
    else [.nonSeasonalAR, .baseline]
  else [.baseline]

/-- The stage behind each `model_used` string of the source. -/
def modelStage (n : String) : Option Stage :=
  if n = "Prophet (Seasonal)" then some .seasonalDecomp
  else if n = "SARIMAX (Seasonal)" then some .seasonalAR
  else if n = "ARIMA (Non-seasonal)" ∨ n = "ARIMA" then some .nonSeasonalAR
  else if n = "Linear Baseline" ∨ n = "Linear Baseline (Fallback)" then
    some .baseline
  else none

/-! ## Concrete inputs used by witnesses and counterexamples -/

/-- All three external fitters raise. -/
def oerr : Oracles := ⟨.err, .err, .err⟩

/-- Three aggregated weeks: below the 4-week minimum. -/
def w3 : Weekly := [⟨0, 1⟩, ⟨7, 1⟩, ⟨14, 1⟩]

/-- Four aggregated weeks of constant value 1 (sample std 0). -/
def w4 : Weekly := [⟨0, 1⟩, ⟨7, 1⟩, ⟨14, 1⟩, ⟨21, 1⟩]

/-- Four constant weeks ending 2020-12-13 (day 18609), so the first two
forecast weeks (18616 = Dec 20, 18623 = Dec 27) are in the boost window
and the later ones (18630 = 2021-01-03, …) are not. -/
def w4dec : Weekly := [⟨18588, 1⟩, ⟨18595, 1⟩, ⟨18602, 1⟩, ⟨18609, 1⟩]

/-- Four aggregated weeks, all zero-valued. -/
def w04 : Weekly := [⟨0, 0⟩, ⟨7, 0⟩, ⟨14, 0⟩, ⟨21, 0⟩]

/-- Sixteen points: one 0 and fifteen 16s.  Mean 15, sample variance 16
(so sample std 4 is rational); the 0 is a low outlier with z-score 3.75. -/
def xs16 : List ℚ := 0 :: List.replicate 15 16

/-- Sixteen weeks: fifteen zero weeks then a spike of 16.  Mean 1, sample
variance 16 (std 4): the spike has z-score 3.75 and is capped to
mean + 2·std = 9 in the cleaned series. -/
def wSpike : Weekly :=
  [⟨0, 0⟩, ⟨7, 0⟩, ⟨14, 0⟩, ⟨21, 0⟩, ⟨28, 0⟩, ⟨35, 0⟩, ⟨42, 0⟩, ⟨49, 0⟩,
   ⟨56, 0⟩, ⟨63, 0⟩, ⟨70, 0⟩, ⟨77, 0⟩, ⟨84, 0⟩, ⟨91, 0⟩, ⟨98, 0⟩, ⟨105, 16⟩]

/-- Eleven usable points (min_train_size = max(8, 11 / 2) = 8). -/
def s11 : List ℚ := List.replicate 11 1

/-- Twelve usable points. -/
def s12 : List ℚ := List.replicate 12 1

/-! ## Rounding lemmas -/

theorem rhe_mono {x y : ℚ} (hxy : x ≤ y) : rhe x ≤ rhe y := by
  unfold rhe
  have hf : ⌊x⌋ ≤ ⌊y⌋ := Int.floor_le_floor hxy
  rcases eq_or_lt_of_le hf with heq | hlt
  · have hc : ((⌊x⌋ : ℚ)) = ((⌊y⌋ : ℚ)) := by exact_mod_cast heq
    have h2 : x - (⌊x⌋ : ℚ) ≤ y - (⌊y⌋ : ℚ) := by rw [← hc]; linarith
    split_ifs <;> first | omega | (exfalso; linarith)
  · split_ifs <;> omega

theorem rhe_zero : rhe 0 = 0 := by
  have h0 : ⌊(0 : ℚ)⌋ = 0 := Int.floor_zero
  simp [rhe, h0]

theorem roundTo_mono (d : Nat) {x y : ℚ} (h : x ≤ y) : roundTo d x ≤ roundTo d y := by
  unfold roundTo
  have hp : (0 : ℚ) ≤ 10 ^ d := by positivity
  have h1 : rhe (x * 10 ^ d) ≤ rhe (y * 10 ^ d) :=
    rhe_mono (mul_le_mul_of_nonneg_right h hp)
  have h2 : ((rhe (x * 10 ^ d) : ℚ)) ≤ ((rhe (y * 10 ^ d) : ℚ)) := by exact_mod_cast h1
  have hp2 : (0 : ℚ) < 10 ^ d := by positivity
  gcongr

theorem roundTo_zero (d : Nat) : roundTo d 0 = 0 := by
  unfold roundTo
  rw [zero_mul, rhe_zero]
  norm_num

theorem roundTo_nonneg (d : Nat) {x : ℚ} (h : 0 ≤ x) : 0 ≤ roundTo d x :=
  (roundTo_zero d) ▸ roundTo_mono d h

/-! ## C5: when backtesting is skipped -/

/-- With a positive horizon, at least one feasible window, and enough data
for the initial split, the pooled pair list is non-empty (the first window
always contributes a full test slice). -/
theorem backtestPairs_ne_nil {s : List ℚ} {hor m numW : Nat}
    (hh : 1 ≤ hor) (hlen : m + hor ≤ s.length) (hw : 1 ≤ numW) :
    backtestPairs s hor m numW ≠ [] := by
  unfold backtestPairs
  obtain ⟨k, rfl⟩ : ∃ k, numW = k + 1 := ⟨numW - 1, by omega⟩
  rw [List.range_succ_eq_map, List.takeWhile_cons]
  have hp : (decide (m + 0 * ForecastConfig.BACKTEST_STEP + hor ≤ s.length)) = true := by
    simp [ForecastConfig.BACKTEST_STEP]
    omega
  rw [hp]
  simp only [if_true, List.flatMap_cons]
  intro hcontra
  have hlenc := congrArg List.length hcontra
  rw [List.length_append] at hlenc
  have h1 : (((s.drop (m + 0 * ForecastConfig.BACKTEST_STEP)).take hor).zip
      (((List.range ((s.drop (m + 0 * ForecastConfig.BACKTEST_STEP)).take hor).length)).map
        (fun j => olsPredict (s.take (m + 0 * ForecastConfig.BACKTEST_STEP))
          ((s.take (m + 0 * ForecastConfig.BACKTEST_STEP)).length + j)))).length =
      ((s.drop (m + 0 * ForecastConfig.BACKTEST_STEP)).take hor).length := by
    rw [List.length_zip, List.length_map, List.length_range]
    omega
  simp only [List.length_nil] at hlenc
  rw [h1] at hlenc
  rw [List.length_take, List.length_drop] at hlenc
  simp [ForecastConfig.BACKTEST_STEP] at hlenc
  omega

/-- C5 (amended).  Backtesting is skipped exactly when the series is shorter
than `min_train_size + horizon` or the number of feasible windows
`min((len - min_train) // step, 8)` is below 2; when it runs, the metrics
are the pooled metrics over the collected predicted/actual pairs; when it is
skipped, the reported accuracy object has `mape`, `rmse`, `r2` null,
`accuracy` 0 and confidence `override-or-LOW`. -/
theorem C5_backtest_skip (s : List ℚ) (hor m : Nat) (hh : 1 ≤ hor) :
    (rolling_origin_backtest s hor m = none ↔
      s.length < m + hor ∨
        min ((s.length - m) / ForecastConfig.BACKTEST_STEP) 8 <
          ForecastConfig.MIN_BACKTEST_WINDOWS) ∧
    (∀ M, rolling_origin_backtest s hor m = some M →
      M = calculate_accuracy_metrics
        ((backtestPairs s hor m
            (min ((s.length - m) / ForecastConfig.BACKTEST_STEP) 8)).map Prod.fst)
        ((backtestPairs s hor m
            (min ((s.length - m) / ForecastConfig.BACKTEST_STEP) 8)).map Prod.snd)) ∧
    (∀ ov : Option Confidence, buildAccuracy none ov =
      { mape := none, rmse_sq := none, r2 := none, accuracy := some 0
        confidence := ov.getD .LOW }) := by
  refine ⟨?_, ?_, fun ov => rfl⟩
  · by_cases h1 : s.length < m + hor
    · simp [rolling_origin_backtest, h1]
    · by_cases h2 : min ((s.length - m) / ForecastConfig.BACKTEST_STEP) 8 <
          ForecastConfig.MIN_BACKTEST_WINDOWS
      · simp [rolling_origin_backtest, h1, h2]
      · have hne : backtestPairs s hor m
            (min ((s.length - m) / ForecastConfig.BACKTEST_STEP) 8) ≠ [] :=
          backtestPairs_ne_nil hh (by omega)
            (by simp [ForecastConfig.MIN_BACKTEST_WINDOWS] at h2; omega)
        have hlp : ¬ (backtestPairs s hor m
            (min ((s.length - m) / ForecastConfig.BACKTEST_STEP) 8)).length = 0 := by
          simpa [List.length_eq_zero] using hne
        simp [rolling_origin_backtest, h1, h2, hlp]
  · intro M hM
    by_cases h1 : s.length < m + hor
    · simp [rolling_origin_backtest, h1] at hM
    · by_cases h2 : min ((s.length - m) / ForecastConfig.BACKTEST_STEP) 8 <
          ForecastConfig.MIN_BACKTEST_WINDOWS
      · simp [rolling_origin_backtest, h1, h2] at hM
      · have hne : backtestPairs s hor m
            (min ((s.length - m) / ForecastConfig.BACKTEST_STEP) 8) ≠ [] :=
          backtestPairs_ne_nil hh (by omega)
            (by simp [ForecastConfig.MIN_BACKTEST_WINDOWS] at h2; omega)
        have hlp : ¬ (backtestPairs s hor m
            (min ((s.length - m) / ForecastConfig.BACKTEST_STEP) 8)).length = 0 := by
          simpa [List.length_eq_zero] using hne
        simp [rolling_origin_backtest, h1, h2, hlp] at hM
        exact hM.symm

/-- C5, as stated, is false: with 11 usable points, `min_train_size
= max(8, 11 // 2) = 8` and horizon 4, there are `min(3, 8) = 3 ≥ 2`
feasible windows, yet backtesting is skipped (the length precondition
`len ≥ min_train + horizon` fails first). -/
theorem C5_counterexample :
    rolling_origin_backtest s11 4 (max 8 (s11.length / 2)) = none ∧
    ForecastConfig.MIN_BACKTEST_WINDOWS ≤
      min ((s11.length - max 8 (s11.length / 2)) / ForecastConfig.BACKTEST_STEP) 8 := by
  decide

/-- Witness for `C5_backtest_skip`: on 12 points with `min_train = 8` and
horizon 2 backtesting is not skipped. -/
theorem C5_witness : rolling_origin_backtest s12 2 8 ≠ none := fun heq =>
  absurd ((C5_backtest_skip s12 2 8 (by decide)).1.mp heq) (by decide)

/-! ## C6: z-score anomaly handling -/

theorem getD_map_of_lt (f : ℚ → ℚ) (xs : List ℚ) (i : Nat) (hi : i < xs.length) :
    (xs.map f).getD i 0 = f (xs.getD i 0) := by
  rw [List.getD_eq_getElem _ _ (by simpa using hi), List.getElem_map,
    List.getD_eq_getElem _ _ hi]

/-- C6 (amended).  For a series of at least 4 points with sample standard
deviation `std`, the cleaned series keeps the input's length; every point
whose absolute normalized deviation exceeds the threshold 3 is replaced by
`min(value, mean + 2·std)` — i.e. capped only from above, a low outlier is
left at its original value — and every other point is unchanged. -/
theorem C6_anomaly_capping (xs : List ℚ) (std : ℚ) (_hstd : 0 ≤ std)
    (_hvar : std ^ 2 = sampleVar xs) (hlen : 4 ≤ xs.length) :
    (detect_and_handle_anomalies xs std).1.length = xs.length ∧
    ∀ i, i < xs.length →
      (zAnomaly (mean xs) std (xs.getD i 0) = true →
        (detect_and_handle_anomalies xs std).1.getD i 0 =
          min (xs.getD i 0) (mean xs + 2 * std)) ∧
      (zAnomaly (mean xs) std (xs.getD i 0) = false →
        (detect_and_handle_anomalies xs std).1.getD i 0 = xs.getD i 0) := by
  have hnot : ¬ xs.length < 4 := by omega
  have hcl : (detect_and_handle_anomalies xs std).1 =
      xs.map (fun x => if zAnomaly (mean xs) std x then min x (mean xs + 2 * std) else x) := by
    simp [detect_and_handle_anomalies, hnot]
  refine ⟨by rw [hcl]; simp, fun i hi => ⟨fun hz => ?_, fun hz => ?_⟩⟩
  · rw [hcl, getD_map_of_lt _ _ _ hi, if_pos hz]
  · rw [hcl, getD_map_of_lt _ _ _ hi,
      if_neg (fun hc => by rw [hz] at hc; exact Bool.noConfusion hc)]

/-- C6, as stated, is false: in `xs16` (mean 15, sample std 4) the first
point 0 has normalized deviation 3.75 > 3, so the claim says it is set to
the cap `mean + 2·std = 23`; the code leaves it at `min(0, 23) = 0`. -/
theorem C6_counterexample :
    4 ≤ xs16.length ∧ (0 : ℚ) ≤ 4 ∧ (4 : ℚ) ^ 2 = sampleVar xs16 ∧
    zAnomaly (mean xs16) 4 (xs16.getD 0 0) = true ∧
    mean xs16 + 2 * 4 = 23 ∧
    (detect_and_handle_anomalies xs16 4).1.getD 0 0 = 0 ∧
    ((0 : ℚ) ≠ 23) := by
  refine ⟨by decide, by norm_num, by norm_num [sampleVar, xs16, mean], ?_,
    by norm_num [mean, xs16], ?_, by norm_num⟩
  · norm_num [zAnomaly, mean, xs16, ForecastConfig.ZSCORE_THRESHOLD]
  · norm_num [detect_and_handle_anomalies, xs16, zAnomaly, mean,
      ForecastConfig.ZSCORE_THRESHOLD]

/-- Witness for `C6_anomaly_capping` at `xs16` with its sample std 4:
the flagged low outlier is `min(0, 23) = 0`, and the length is preserved. -/
theorem C6_witness :
    (detect_and_handle_anomalies xs16 4).1.length = xs16.length ∧
    (detect_and_handle_anomalies xs16 4).1.getD 0 0 =
      min (xs16.getD 0 0) (mean xs16 + 2 * 4) := by
  have h := C6_anomaly_capping xs16 4 (by norm_num)
    (by norm_num [sampleVar, xs16, mean]) (by decide)
  exact ⟨h.1, (h.2 0 (by decide)).1
    (by norm_num [zAnomaly, mean, xs16, ForecastConfig.ZSCORE_THRESHOLD])⟩

/-! ## Plumbing lemmas for `generate_ml_forecast` -/

theorem rhe_intCast (z : ℤ) : rhe (z : ℚ) = z := by
  unfold rhe
  rw [Int.floor_intCast]
  norm_num

/-- `roundTo` is the identity on values that are exact at `d` decimals. -/
theorem roundTo_of_int (d : Nat) (x : ℚ) (z : ℤ) (h : x * 10 ^ d = (z : ℚ)) :
    roundTo d x = x := by
  unfold roundTo
  rw [h, rhe_intCast, ← h]
  field_simp

/-- Unfolding of the successful path of the pipeline body: with at least 4
weeks, a successful model selection and bound lists long enough for the
assembly loop, the body returns the assembled result. -/
theorem inner_eq (w : Weekly) (horizon : Nat) (stdA stdB : ℚ) (o : Oracles)
    (fit : RawFit) (name : String) (ov : Option Confidence)
    (h4 : ¬ w.length < 4)
    (hsel : selectModel o (nonzeroCleaned w stdA) stdB horizon = some (fit, name, ov))
    (hlen : ¬ (fit.lower.length < fit.preds.length ∨ fit.upper.length < fit.preds.length)) :
    generate_ml_forecast_inner w horizon stdA stdB o = some
      { historical := historicalRows w
        forecast := connectorPoint (lastDate w) (lastActualValue w) ::
          forecastRows (lastDate w) fit
        totalForecast := roundTo 2
          (((connectorPoint (lastDate w) (lastActualValue w) ::
            forecastRows (lastDate w) fit).map (fun p => p.sales)).sum)
        accuracy := buildAccuracy
          (rolling_origin_backtest (nonzeroCleaned w stdA) horizon
            (max 8 ((nonzeroCleaned w stdA).length / 2))) ov
        model_used := none } := by
  simp only [generate_ml_forecast_inner, hsel, if_neg h4, if_neg hlen]

/-- Inversion of the successful path: any returned result has the assembled
shape. -/
theorem inner_inv (w : Weekly) (horizon : Nat) (stdA stdB : ℚ) (o : Oracles)
    (r : ForecastResult)
    (hr : generate_ml_forecast_inner w horizon stdA stdB o = some r) :
    ∃ fit name ov,
      ¬ w.length < 4 ∧
      selectModel o (nonzeroCleaned w stdA) stdB horizon = some (fit, name, ov) ∧
      ¬ (fit.lower.length < fit.preds.length ∨ fit.upper.length < fit.preds.length) ∧
      r = { historical := historicalRows w
            forecast := connectorPoint (lastDate w) (lastActualValue w) ::
              forecastRows (lastDate w) fit
            totalForecast := roundTo 2
              (((connectorPoint (lastDate w) (lastActualValue w) ::
                forecastRows (lastDate w) fit).map (fun p => p.sales)).sum)
            accuracy := buildAccuracy
              (rolling_origin_backtest (nonzeroCleaned w stdA) horizon
                (max 8 ((nonzeroCleaned w stdA).length / 2))) ov
            model_used := none } := by
  simp only [generate_ml_forecast_inner] at hr
  by_cases h4 : w.length < 4
  · rw [if_pos h4] at hr
    exact absurd hr (by simp)
  · rw [if_neg h4] at hr
    rcases hsel : selectModel o (nonzeroCleaned w stdA) stdB horizon with _ | ⟨fit, name, ov⟩
    · rw [hsel] at hr
      exact absurd hr (by simp)
    · rw [hsel] at hr
      by_cases hlen : fit.lower.length < fit.preds.length ∨
          fit.upper.length < fit.preds.length
      · simp only [if_pos hlen] at hr
        exact absurd hr (by simp)
      · simp only [if_neg hlen] at hr
        exact ⟨fit, name, ov, h4, rfl, hlen, (Option.some_injective _ hr).symm⟩

/-! ## C1: the safe fallback of the top-level handler -/

/-- C1 (amended).  Fewer than 4 aggregated weeks raises inside the `try`
body, and every error reaching the top level yields the well-formed
fallback with empty `historical`/`forecast`, `totalForecast = 0`,
`mape`/`rmse`/`r2` null, confidence LOW — but the `accuracy` field of the
accuracy object is the number 0, not null. -/
theorem C1_fallback (w : Weekly) (horizon : Nat) (stdA stdB : ℚ) (o : Oracles) :
    (w.length < 4 → generate_ml_forecast_inner w horizon stdA stdB o = none) ∧
    (generate_ml_forecast_inner w horizon stdA stdB o = none →
      generate_ml_forecast w horizon stdA stdB o =
        { historical := [], forecast := [], totalForecast := 0
          accuracy := { mape := none, rmse_sq := none, r2 := none
                        accuracy := some 0, confidence := .LOW }
          model_used := none }) := by
  constructor
  · intro hlt
    simp [generate_ml_forecast_inner, hlt]
  · intro hnone
    simp [generate_ml_forecast, hnone, fallbackResult]

/-- C1, as stated, is false at a 3-week input: the fallback's `accuracy`
object carries `accuracy = 0`, not null. -/
theorem C1_counterexample :
    (generate_ml_forecast w3 4 0 0 oerr).historical = [] ∧
    (generate_ml_forecast w3 4 0 0 oerr).forecast = [] ∧
    (generate_ml_forecast w3 4 0 0 oerr).totalForecast = 0 ∧
    (generate_ml_forecast w3 4 0 0 oerr).accuracy.mape = none ∧
    (generate_ml_forecast w3 4 0 0 oerr).accuracy.accuracy = some 0 ∧
    (generate_ml_forecast w3 4 0 0 oerr).accuracy.accuracy ≠ none := by
  have hnone : generate_ml_forecast_inner w3 4 0 0 oerr = none := by
    simp [generate_ml_forecast_inner, w3]
  simp [generate_ml_forecast, hnone, fallbackResult]

/-- Witness for `C1_fallback` at the 3-week input `w3`. -/
theorem C1_witness :
    generate_ml_forecast w3 4 0 0 oerr =
      { historical := [], forecast := [], totalForecast := 0
        accuracy := { mape := none, rmse_sq := none, r2 := none
                      accuracy := some 0, confidence := .LOW }
        model_used := none } :=
  (C1_fallback w3 4 0 0 oerr).2 ((C1_fallback w3 4 0 0 oerr).1 (by decide))

/-! ## C2: the `model_used` key -/

/-- C2 (amended).  The result dictionary never contains a `model_used`
key: the identifier is computed and logged but not returned. -/
theorem C2_no_model_used (w : Weekly) (horizon : Nat) (stdA stdB : ℚ)
    (o : Oracles) :
    (generate_ml_forecast w horizon stdA stdB o).model_used = none := by
  rcases hin : generate_ml_forecast_inner w horizon stdA stdB o with _ | r
  · simp [generate_ml_forecast, hin, fallbackResult]
  · obtain ⟨fit, name, ov, _, _, _, hrec⟩ := inner_inv w horizon stdA stdB o r hin
    simp [generate_ml_forecast, hin, hrec]

/-- C2, as stated, is false: a successful 4-week run returns a non-empty
forecast but no `model_used` key. -/
theorem C2_counterexample :
    (generate_ml_forecast w4 4 0 0 oerr).forecast ≠ [] ∧
    (generate_ml_forecast w4 4 0 0 oerr).model_used = none := by
  have hys : nonzeroCleaned w4 0 = [1, 1, 1, 1] := by
    norm_num [nonzeroCleaned, cleanedValues, detect_and_handle_anomalies, w4,
      zAnomaly, mean]
  have hsel : selectModel oerr (nonzeroCleaned w4 0) 0 4 =
      some (⟨[1, 1, 1, 1], [1, 1, 1, 1], [1, 1, 1, 1]⟩, "Linear Baseline",
        some .LOW) := by
    rw [hys]
    norm_num [selectModel, ForecastConfig.SEASONAL_THRESHOLD,
      ForecastConfig.MIN_ARIMA_THRESHOLD, oerr, fit_baseline_model, clampFit,
      olsPredict, olsIntercept, olsSlope, List.range_succ]
  have hin := inner_eq w4 4 0 0 oerr _ _ _ (by decide) hsel (by decide)
  rw [generate_ml_forecast, hin]
  exact ⟨by simp, rfl⟩

/-! ## C10: all-zero cleaned series -/

/-- C10.  With at least 4 aggregated weeks but an all-zero cleaned series,
the usable series is empty, the baseline fitter raises on it inside model
selection (no `except` protects it), and the caught top-level error yields
the safe all-empty fallback. -/
theorem C10_all_zero (w : Weekly) (horizon : Nat) (stdA stdB : ℚ) (o : Oracles)
    (h4 : 4 ≤ w.length) (hz : ∀ v ∈ cleanedValues w stdA, v = 0) :
    selectModel o (nonzeroCleaned w stdA) stdB horizon = none ∧
    generate_ml_forecast w horizon stdA stdB o = fallbackResult := by
  have hys : nonzeroCleaned w stdA = [] := by
    rw [nonzeroCleaned, List.filter_eq_nil_iff]
    intro v hv
    simp [hz v hv]
  have hsel : selectModel o (nonzeroCleaned w stdA) stdB horizon = none := by
    rw [hys]
    simp [selectModel, ForecastConfig.SEASONAL_THRESHOLD,
      ForecastConfig.MIN_ARIMA_THRESHOLD, fit_baseline_model]
  refine ⟨hsel, ?_⟩
  have hnone : generate_ml_forecast_inner w horizon stdA stdB o = none := by
    simp only [generate_ml_forecast_inner, hsel, if_neg (by omega : ¬ w.length < 4)]
  simp [generate_ml_forecast, hnone]

/-- Witness for `C10_all_zero` at four all-zero weeks. -/
theorem C10_witness : generate_ml_forecast w04 4 0 0 oerr = fallbackResult :=
  (C10_all_zero w04 4 0 0 oerr (by decide)
    (by norm_num [cleanedValues, detect_and_handle_anomalies, w04, zAnomaly, mean])).2

/-! ## C4: baseline forces LOW confidence -/

theorem buildAccuracy_confidence (bt : Option Metrics) (c : Confidence) :
    (buildAccuracy bt (some c)).confidence = c := by
  cases bt <;> rfl

/-- In every branch of the selection chain, a baseline `model_used` comes
with `confidence_override = 'LOW'`, and the override is otherwise unset. -/
theorem selectModel_override (o : Oracles) (ys : List ℚ) (stdB : ℚ) (h : Nat)
    (fit : RawFit) (name : String) (ov : Option Confidence)
    (hsel : selectModel o ys stdB h = some (fit, name, ov)) :
    (modelStage name = some .baseline → ov = some .LOW) ∧
    (ov = none ∨ ov = some .LOW) := by
  unfold selectModel at hsel
  by_cases h52 : ForecastConfig.SEASONAL_THRESHOLD ≤ ys.length
  · rw [if_pos h52] at hsel
    rcases hp : fit_prophet_model o.prophet with _ | r1
    · simp only [hp] at hsel
      rcases hs : fit_arima_model o.sarimaxSeasonal with _ | r2
      · simp only [hs] at hsel
        rcases ha : fit_arima_model o.arimaNonSeasonal with _ | r3
        · simp only [ha] at hsel
          rcases hb : fit_baseline_model ys stdB h with _ | r4
          · simp only [hb] at hsel
            exact Option.noConfusion hsel
          · simp only [hb, Option.some.injEq, Prod.mk.injEq] at hsel
            obtain ⟨-, -, hov⟩ := hsel
            rw [← hov]
            exact ⟨fun _ => rfl, Or.inr rfl⟩
        · simp only [ha, Option.some.injEq, Prod.mk.injEq] at hsel
          obtain ⟨-, hn, hov⟩ := hsel
          rw [← hn, ← hov]
          exact ⟨by decide, Or.inl rfl⟩
      · simp only [hs, Option.some.injEq, Prod.mk.injEq] at hsel
        obtain ⟨-, hn, hov⟩ := hsel
        rw [← hn, ← hov]
        exact ⟨by decide, Or.inl rfl⟩
    · simp only [hp, Option.some.injEq, Prod.mk.injEq] at hsel
      obtain ⟨-, hn, hov⟩ := hsel
      rw [← hn, ← hov]
      exact ⟨by decide, Or.inl rfl⟩
  · rw [if_neg h52] at hsel
    by_cases h16 : ForecastConfig.MIN_ARIMA_THRESHOLD ≤ ys.length
    · rw [if_pos h16] at hsel
      rcases ha : fit_arima_model o.arimaNonSeasonal with _ | r3
      · simp only [ha] at hsel
        rcases hb : fit_baseline_model ys stdB h with _ | r4
        · simp only [hb] at hsel
          exact Option.noConfusion hsel
        · simp only [hb, Option.some.injEq, Prod.mk.injEq] at hsel
          obtain ⟨-, -, hov⟩ := hsel
          rw [← hov]
          exact ⟨fun _ => rfl, Or.inr rfl⟩
      · simp only [ha, Option.some.injEq, Prod.mk.injEq] at hsel
        obtain ⟨-, hn, hov⟩ := hsel
        rw [← hn, ← hov]
        exact ⟨by decide, Or.inl rfl⟩
    · rw [if_neg h16] at hsel
      rcases hb : fit_baseline_model ys stdB h with _ | r4
      · simp only [hb] at hsel
        exact Option.noConfusion hsel
      · simp only [hb, Option.some.injEq, Prod.mk.injEq] at hsel
        obtain ⟨-, -, hov⟩ := hsel
        rw [← hov]
        exact ⟨fun _ => rfl, Or.inr rfl⟩

/-- With fewer than 16 usable points, the selector can only return the
direct baseline (with the LOW override set). -/
theorem selectModel_small (o : Oracles) (ys : List ℚ) (stdB : ℚ) (h : Nat)
    (hlt : ys.length < ForecastConfig.MIN_ARIMA_THRESHOLD)
    (fit : RawFit) (name : String) (ov : Option Confidence)
    (hsel : selectModel o ys stdB h = some (fit, name, ov)) :
    name = "Linear Baseline" ∧ ov = some .LOW := by
  unfold selectModel at hsel
  rw [if_neg (by
      simp only [ForecastConfig.SEASONAL_THRESHOLD,
        ForecastConfig.MIN_ARIMA_THRESHOLD] at hlt ⊢
      omega),
    if_neg (by omega)] at hsel
  rcases hb : fit_baseline_model ys stdB h with _ | r
  · simp only [hb] at hsel
    exact Option.noConfusion hsel
  · simp only [hb, Option.some.injEq, Prod.mk.injEq] at hsel
    obtain ⟨-, hn, hov⟩ := hsel
    exact ⟨hn.symm, hov.symm⟩

/-- C4.  Whenever the baseline linear-trend model produced the final
forecast (directly or via fallback), the reported confidence is LOW no
matter what backtesting computed; in particular, with fewer than 16 usable
points the confidence is always LOW. -/
theorem C4_baseline_low (w : Weekly) (horizon : Nat) (stdA stdB : ℚ)
    (o : Oracles) :
    (∀ fit name ov,
      selectModel o (nonzeroCleaned w stdA) stdB horizon = some (fit, name, ov) →
      modelStage name = some .baseline →
      (generate_ml_forecast w horizon stdA stdB o).accuracy.confidence = .LOW) ∧
    ((nonzeroCleaned w stdA).length < ForecastConfig.MIN_ARIMA_THRESHOLD →
      (generate_ml_forecast w horizon stdA stdB o).accuracy.confidence = .LOW) := by
  have key : ∀ fit name,
      selectModel o (nonzeroCleaned w stdA) stdB horizon =
        some (fit, name, some .LOW) →
      (generate_ml_forecast w horizon stdA stdB o).accuracy.confidence = .LOW := by
    intro fit name hsel
    rcases hin : generate_ml_forecast_inner w horizon stdA stdB o with _ | r
    · simp [generate_ml_forecast, hin, fallbackResult]
    · obtain ⟨fit2, name2, ov2, -, hsel2, -, hrec⟩ :=
        inner_inv w horizon stdA stdB o r hin
      rw [hsel2] at hsel
      simp only [Option.some.injEq, Prod.mk.injEq] at hsel
      obtain ⟨-, -, hov⟩ := hsel
      rw [generate_ml_forecast, hin, Option.getD_some, hrec]
      show (buildAccuracy _ ov2).confidence = _
      rw [hov]
      exact buildAccuracy_confidence _ _
  constructor
  · intro fit name ov hsel hstage
    have hov := (selectModel_override o (nonzeroCleaned w stdA) stdB horizon
      fit name ov hsel).1 hstage
    rw [hov] at hsel
    exact key fit name hsel
  · intro h16
    rcases hsel : selectModel o (nonzeroCleaned w stdA) stdB horizon with
      _ | ⟨fit, name, ov⟩
    · have hnone : generate_ml_forecast_inner w horizon stdA stdB o = none := by
        by_cases h4 : w.length < 4
        · simp [generate_ml_forecast_inner, h4]
        · simp only [generate_ml_forecast_inner, if_neg h4, hsel]
      simp [generate_ml_forecast, hnone, fallbackResult]
    · obtain ⟨-, hov⟩ := selectModel_small o (nonzeroCleaned w stdA) stdB horizon
        h16 fit name ov hsel
      rw [hov] at hsel
      exact key fit name hsel

/-- Witness for `C4_baseline_low` at the sparse input `w4`
(4 usable points, baseline entered directly). -/
theorem C4_witness :
    (nonzeroCleaned w4 0).length < ForecastConfig.MIN_ARIMA_THRESHOLD ∧
    (generate_ml_forecast w4 4 0 0 oerr).accuracy.confidence = .LOW := by
  have hlen : (nonzeroCleaned w4 0).length < ForecastConfig.MIN_ARIMA_THRESHOLD := by
    norm_num [nonzeroCleaned, cleanedValues, detect_and_handle_anomalies, w4,
      zAnomaly, mean, ForecastConfig.MIN_ARIMA_THRESHOLD]
  exact ⟨hlen, (C4_baseline_low w4 4 0 0 oerr).2 hlen⟩

/-! ## C3: the selection state machine -/

/-- C3.  The attempted-stage list starts at the entry stage determined by
the usable-point count, is a contiguous infix of the chain
seasonal decomposition → seasonal AR → non-seasonal AR → baseline (no stage
skipped), never contains a stage whose minimum-sample gate exceeds the
usable count, consists of failing fitters followed by one final stage that
does not fail, and the model the selector returns belongs to that final
stage. -/
theorem C3_selector_chain (ys : List ℚ) (stdB : ℚ) (h : Nat) (o : Oracles) :
    (attemptedStages ys.length o).head? = some (entryStage ys.length) ∧
    List.IsInfix (attemptedStages ys.length o) chainStages ∧
    (∀ st ∈ attemptedStages ys.length o, stageGate st ≤ ys.length) ∧
    (∀ i, i + 1 < (attemptedStages ys.length o).length →
      stageFails o ((attemptedStages ys.length o).getD i .baseline) = true) ∧
    stageFails o ((attemptedStages ys.length o).getLastD .baseline) = false ∧
    (∀ fit name ov, selectModel o ys stdB h = some (fit, name, ov) →
      modelStage name = some ((attemptedStages ys.length o).getLastD .baseline)) := by
  obtain ⟨p, s, a⟩ := o
  by_cases h52 : ForecastConfig.SEASONAL_THRESHOLD ≤ ys.length
  · have h16 : ForecastConfig.MIN_ARIMA_THRESHOLD ≤ ys.length := by
      simp only [ForecastConfig.SEASONAL_THRESHOLD,
        ForecastConfig.MIN_ARIMA_THRESHOLD] at h52 ⊢
      omega
    cases p with
    | ok r1 =>
      have hatt : attemptedStages ys.length ⟨.ok r1, s, a⟩ = [.seasonalDecomp] := by
        simp [attemptedStages, if_pos h52, Outcome.isOk]
      refine ⟨?_, ?_, ?_, ?_, ?_, ?_⟩
      · rw [hatt]; simp [entryStage, if_pos h52]
      · rw [hatt]; exact ⟨[], [.seasonalAR, .nonSeasonalAR, .baseline], rfl⟩
      · rw [hatt]; intro st hst; simp at hst; subst hst; simpa [stageGate] using h52
      · rw [hatt]; intro i hi; simp at hi
      · rw [hatt]; simp [stageFails, Outcome.isOk]
      · intro fit name ov hsel
        simp only [selectModel, if_pos h52, fit_prophet_model,
          Option.some.injEq, Prod.mk.injEq] at hsel
        obtain ⟨-, hn, -⟩ := hsel
        rw [hatt, ← hn]; decide
    | err =>
      cases s with
      | ok r2 =>
        have hatt : attemptedStages ys.length ⟨.err, .ok r2, a⟩ =
            [.seasonalDecomp, .seasonalAR] := by
          simp [attemptedStages, if_pos h52, Outcome.isOk]
        refine ⟨?_, ?_, ?_, ?_, ?_, ?_⟩
        · rw [hatt]; simp [entryStage, if_pos h52]
        · rw [hatt]; exact ⟨[], [.nonSeasonalAR, .baseline], rfl⟩
        · rw [hatt]; intro st hst; simp at hst
          rcases hst with rfl | rfl <;> simpa [stageGate] using h52
        · rw [hatt]; intro i hi; simp at hi
          rcases i with _ | i
          · simp [stageFails, Outcome.isOk]
          · omega
        · rw [hatt]; simp [stageFails, Outcome.isOk]
        · intro fit name ov hsel
          simp only [selectModel, if_pos h52, fit_prophet_model, fit_arima_model,
            Option.some.injEq, Prod.mk.injEq] at hsel
          obtain ⟨-, hn, -⟩ := hsel
          rw [hatt, ← hn]; decide
      | err =>
        cases a with
        | ok r3 =>
          have hatt : attemptedStages ys.length ⟨.err, .err, .ok r3⟩ =
              [.seasonalDecomp, .seasonalAR, .nonSeasonalAR] := by
            simp [attemptedStages, if_pos h52, Outcome.isOk]
          refine ⟨?_, ?_, ?_, ?_, ?_, ?_⟩
          · rw [hatt]; simp [entryStage, if_pos h52]
          · rw [hatt]; exact ⟨[], [.baseline], rfl⟩
          · rw [hatt]; intro st hst; simp at hst
            rcases hst with rfl | rfl | rfl <;>
              first
                | simpa [stageGate] using h52
                | simpa [stageGate] using h16
          · rw [hatt]; intro i hi; simp at hi
            rcases i with _ | _ | i
            · simp [stageFails, Outcome.isOk]
            · simp [stageFails, Outcome.isOk]
            · omega
          · rw [hatt]; simp [stageFails, Outcome.isOk]
          · intro fit name ov hsel
            simp only [selectModel, if_pos h52, fit_prophet_model, fit_arima_model,
              Option.some.injEq, Prod.mk.injEq] at hsel
            obtain ⟨-, hn, -⟩ := hsel
            rw [hatt, ← hn]; decide
        | err =>
          have hatt : attemptedStages ys.length ⟨.err, .err, .err⟩ =
              [.seasonalDecomp, .seasonalAR, .nonSeasonalAR, .baseline] := by
            simp [attemptedStages, if_pos h52, Outcome.isOk]
          refine ⟨?_, ?_, ?_, ?_, ?_, ?_⟩
          · rw [hatt]; simp [entryStage, if_pos h52]
          · rw [hatt]; exact ⟨[], [], by decide⟩
          · rw [hatt]; intro st hst; simp at hst
            rcases hst with rfl | rfl | rfl | rfl
            · simpa [stageGate] using h52
            · simpa [stageGate] using h52
            · simpa [stageGate] using h16
            · simp [stageGate]
          · rw [hatt]; intro i hi; simp at hi
            rcases i with _ | _ | _ | i
            · simp [stageFails, Outcome.isOk]
            · simp [stageFails, Outcome.isOk]
            · simp [stageFails, Outcome.isOk]
            · omega
          · rw [hatt]; simp [stageFails]
          · intro fit name ov hsel
            simp only [selectModel, if_pos h52, fit_prophet_model,
              fit_arima_model] at hsel
            rcases hb : fit_baseline_model ys stdB h with _ | r4
            · simp only [hb] at hsel
              exact Option.noConfusion hsel
            · simp only [hb, Option.some.injEq, Prod.mk.injEq] at hsel
              obtain ⟨-, hn, -⟩ := hsel
              rw [hatt, ← hn]; decide
  · rw [show (⟨p, s, a⟩ : Oracles) = ⟨p, s, a⟩ from rfl]
    by_cases h16 : ForecastConfig.MIN_ARIMA_THRESHOLD ≤ ys.length
    · cases a with
      | ok r3 =>
        have hatt : attemptedStages ys.length ⟨p, s, .ok r3⟩ =
            [.nonSeasonalAR] := by
          simp [attemptedStages, if_neg h52, if_pos h16, Outcome.isOk]
        refine ⟨?_, ?_, ?_, ?_, ?_, ?_⟩
        · rw [hatt]; simp [entryStage, if_neg h52, if_pos h16]
        · rw [hatt]; exact ⟨[.seasonalDecomp, .seasonalAR], [.baseline], rfl⟩
        · rw [hatt]; intro st hst; simp at hst; subst hst
          simpa [stageGate] using h16
        · rw [hatt]; intro i hi; simp at hi
        · rw [hatt]; simp [stageFails, Outcome.isOk]
        · intro fit name ov hsel
          simp only [selectModel, if_neg h52, if_pos h16, fit_arima_model,
            Option.some.injEq, Prod.mk.injEq] at hsel
          obtain ⟨-, hn, -⟩ := hsel
          rw [hatt, ← hn]; decide
      | err =>
        have hatt : attemptedStages ys.length ⟨p, s, .err⟩ =
            [.nonSeasonalAR, .baseline] := by
          simp [attemptedStages, if_neg h52, if_pos h16, Outcome.isOk]
        refine ⟨?_, ?_, ?_, ?_, ?_, ?_⟩
        · rw [hatt]; simp [entryStage, if_neg h52, if_pos h16]
        · rw [hatt]; exact ⟨[.seasonalDecomp, .seasonalAR], [], by decide⟩
        · rw [hatt]; intro st hst; simp at hst
          rcases hst with rfl | rfl
          · simpa [stageGate] using h16
          · simp [stageGate]
        · rw [hatt]; intro i hi; simp at hi
          rcases i with _ | i
          · simp [stageFails, Outcome.isOk]
          · omega
        · rw [hatt]; simp [stageFails]
        · intro fit name ov hsel
          simp only [selectModel, if_neg h52, if_pos h16, fit_arima_model] at hsel
          rcases hb : fit_baseline_model ys stdB h with _ | r4
          · simp only [hb] at hsel
            exact Option.noConfusion hsel
          · simp only [hb, Option.some.injEq, Prod.mk.injEq] at hsel
            obtain ⟨-, hn, -⟩ := hsel
            rw [hatt, ← hn]; decide
    · have hatt : attemptedStages ys.length ⟨p, s, a⟩ = [.baseline] := by
        simp [attemptedStages, if_neg h52, if_neg h16]
      refine ⟨?_, ?_, ?_, ?_, ?_, ?_⟩
      · rw [hatt]; simp [entryStage, if_neg h52, if_neg h16]
      · rw [hatt]
        exact ⟨[.seasonalDecomp, .seasonalAR, .nonSeasonalAR], [], by decide⟩
      · rw [hatt]; intro st hst; simp at hst; subst hst; simp [stageGate]
      · rw [hatt]; intro i hi; simp at hi
      · rw [hatt]; simp [stageFails]
      · intro fit name ov hsel
        simp only [selectModel, if_neg h52, if_neg h16] at hsel
        rcases hb : fit_baseline_model ys stdB h with _ | r4
        · simp only [hb] at hsel
          exact Option.noConfusion hsel
        · simp only [hb, Option.some.injEq, Prod.mk.injEq] at hsel
          obtain ⟨-, hn, -⟩ := hsel
          rw [hatt, ← hn]; decide

/-- Witness for `C3_selector_chain`: 52 usable points, seasonal
decomposition and seasonal AR both failing, non-seasonal AR succeeding —
the selector stops there and the returned model belongs to that stage. -/
theorem C3_witness :
    modelStage "ARIMA (Non-seasonal)" =
      some ((attemptedStages (List.replicate 52 (1 : ℚ)).length
        ⟨.err, .err, .ok ⟨[1], [1], [1]⟩⟩).getLastD .baseline) :=
  (C3_selector_chain (List.replicate 52 1) 0 1
      ⟨.err, .err, .ok ⟨[1], [1], [1]⟩⟩).2.2.2.2.2
    (clampFit ⟨[1], [1], [1]⟩) "ARIMA (Non-seasonal)" none (by decide)

/-! ## C9: the historical tail -/

/-- C9 (amended).  On every successful invocation, the `historical` array
is the last 8 strictly-positive weeks of the *raw* aggregated series (the
`'value'` column, not the anomaly-capped `'value_cleaned'`), each value
rounded to 2 decimals. -/
theorem C9_historical (w : Weekly) (horizon : Nat) (stdA stdB : ℚ)
    (o : Oracles) (r : ForecastResult)
    (hr : generate_ml_forecast_inner w horizon stdA stdB o = some r) :
    r.historical = (lastN 8 (w.filter (fun row => 0 < row.value))).map
      (fun row => { date := row.date, sales := roundTo 2 row.value }) := by
  obtain ⟨fit, name, ov, -, -, -, hrec⟩ := inner_inv w horizon stdA stdB o r hr
  rw [hrec]
  rfl

theorem wSpike_nonzero : nonzeroCleaned wSpike 4 = [9] := by
  norm_num [nonzeroCleaned, cleanedValues, detect_and_handle_anomalies, wSpike,
    zAnomaly, mean, ForecastConfig.ZSCORE_THRESHOLD]

theorem wSpike_sel : selectModel oerr (nonzeroCleaned wSpike 4) 0 4 =
    some (⟨[9, 9, 9, 9], [9, 9, 9, 9], [9, 9, 9, 9]⟩, "Linear Baseline",
      some .LOW) := by
  rw [wSpike_nonzero]
  norm_num [selectModel, ForecastConfig.SEASONAL_THRESHOLD,
    ForecastConfig.MIN_ARIMA_THRESHOLD, oerr, fit_baseline_model, clampFit,
    olsPredict, olsIntercept, olsSlope, List.range_succ]

/-- C9, as stated, is false: in `wSpike` the spike week (day 105, raw value
16) is capped to 9 in the cleaned series, its only non-zero week, yet the
returned `historical` shows the raw 16, not the cleaned 9. -/
theorem C9_counterexample :
    sampleVar (wSpike.map (fun row => row.value)) = 16 ∧
    (generate_ml_forecast wSpike 4 4 0 oerr).historical =
      [{ date := 105, sales := 16 }] ∧
    (lastN 8 (((wSpike.map (fun row => row.date)).zip
        (cleanedValues wSpike 4)).filter (fun q => 0 < q.2))).map
      (fun q => (q.1, roundTo 2 q.2)) = [(105, 9)] ∧
    ({ date := 105, sales := 16 } : HistPoint) ≠ { date := 105, sales := 9 } := by
  have h16 : roundTo 2 (16 : ℚ) = 16 := roundTo_of_int 2 16 1600 (by norm_num)
  have h9 : roundTo 2 (9 : ℚ) = 9 := roundTo_of_int 2 9 900 (by norm_num)
  refine ⟨by norm_num [sampleVar, wSpike, mean], ?_, ?_, ?_⟩
  · have hin := inner_eq wSpike 4 4 0 oerr _ _ _ (by decide) wSpike_sel (by decide)
    rw [generate_ml_forecast, hin, Option.getD_some]
    show historicalRows wSpike = _
    norm_num [historicalRows, lastN, wSpike, h16]
  · have hclv : cleanedValues wSpike 4 =
        [0, 0, 0, 0, 0, 0, 0, 0, 0, 0, 0, 0, 0, 0, 0, 9] := by
      norm_num [cleanedValues, detect_and_handle_anomalies, wSpike, zAnomaly,
        mean, ForecastConfig.ZSCORE_THRESHOLD]
    rw [hclv]
    norm_num [lastN, wSpike, h9]
  · simp [HistPoint.mk.injEq]

/-- Witness for `C9_historical` at `wSpike`: the returned historical array
equals the rounded positive-raw-value tail. -/
theorem C9_witness :
    (generate_ml_forecast wSpike 4 4 0 oerr).historical =
      (lastN 8 (wSpike.filter (fun row => 0 < row.value))).map
        (fun row => { date := row.date, sales := roundTo 2 row.value }) := by
  have hin := inner_eq wSpike 4 4 0 oerr _ _ _ (by decide) wSpike_sel (by decide)
  rw [generate_ml_forecast, hin, Option.getD_some]
  exact C9_historical wSpike 4 4 0 oerr _ hin

/-! ## C8: the December 18-31 uplift -/

theorem forecastRows_getD (ld : Nat) (f : RawFit) (i : Nat)
    (hi : i < f.preds.length) (hl : f.preds.length ≤ f.lower.length)
    (hu : f.preds.length ≤ f.upper.length) :
    (forecastRows ld f).getD i ⟨0, 0, 0, 0⟩ =
      { week := ld + 7 * (i + 1)
        sales := roundTo 2 ((if decBoost (ld + 7 * (i + 1)) then (23 : ℚ)/20 else 1) *
          f.preds.getD i 0)
        lower := roundTo 2 ((if decBoost (ld + 7 * (i + 1)) then (23 : ℚ)/20 else 1) *
          f.lower.getD i 0)
        upper := roundTo 2 ((if decBoost (ld + 7 * (i + 1)) then (23 : ℚ)/20 else 1) *
          f.upper.getD i 0) } := by
  have hz : (f.preds.zip (f.lower.zip f.upper)).length = f.preds.length := by
    simp only [List.length_zip]
    omega
  have hlen2 : i < ((f.preds.zip (f.lower.zip f.upper)).enum.map
      (fun e =>
        ({ week := ld + 7 * (e.1 + 1)
           sales := roundTo 2 ((if decBoost (ld + 7 * (e.1 + 1)) then (23 : ℚ)/20 else 1) * e.2.1)
           lower := roundTo 2 ((if decBoost (ld + 7 * (e.1 + 1)) then (23 : ℚ)/20 else 1) * e.2.2.1)
           upper := roundTo 2 ((if decBoost (ld + 7 * (e.1 + 1)) then (23 : ℚ)/20 else 1) * e.2.2.2) } : ForecastPoint))).length := by
    simp only [List.length_map, List.enum_length, hz]
    omega
  unfold forecastRows
  rw [List.getD_eq_getElem _ _ hlen2, List.getElem_map, List.getElem_enum]
  have hzi : i < (f.preds.zip (f.lower.zip f.upper)).length := by omega
  rw [List.getD_eq_getElem f.preds 0 hi,
    List.getD_eq_getElem f.lower 0 (by omega),
    List.getD_eq_getElem f.upper 0 (by omega)]
  simp only [List.getElem_zip]

/-- C8.  On every successful run, forecast entry `i + 1` (the `i`-th
prediction, after the connector) is dated `i + 1` weeks after the last
historical week, and its point estimate and both bounds are each multiplied
by 1.15 before the 2-decimal rounding exactly when that date falls within
December 18-31 inclusive; otherwise they are rounded unmultiplied. -/
theorem C8_december_boost (w : Weekly) (horizon : Nat) (stdA stdB : ℚ)
    (o : Oracles) (fit : RawFit) (name : String) (ov : Option Confidence)
    (r : ForecastResult)
    (hsel : selectModel o (nonzeroCleaned w stdA) stdB horizon = some (fit, name, ov))
    (hr : generate_ml_forecast_inner w horizon stdA stdB o = some r) :
    ∀ i, i < fit.preds.length →
      r.forecast.getD (i + 1) ⟨0, 0, 0, 0⟩ =
        { week := lastDate w + 7 * (i + 1)
          sales := roundTo 2
            ((if decBoost (lastDate w + 7 * (i + 1)) then (23 : ℚ)/20 else 1) *
              fit.preds.getD i 0)
          lower := roundTo 2
            ((if decBoost (lastDate w + 7 * (i + 1)) then (23 : ℚ)/20 else 1) *
              fit.lower.getD i 0)
          upper := roundTo 2
            ((if decBoost (lastDate w + 7 * (i + 1)) then (23 : ℚ)/20 else 1) *
              fit.upper.getD i 0) } := by
  intro i hi
  obtain ⟨fit2, name2, ov2, -, hsel2, hlen, hrec⟩ :=
    inner_inv w horizon stdA stdB o r hr
  rw [hsel] at hsel2
  simp only [Option.some.injEq, Prod.mk.injEq] at hsel2
  obtain ⟨hf, -, -⟩ := hsel2
  subst hf
  rw [hrec]
  show (connectorPoint (lastDate w) (lastActualValue w) ::
    forecastRows (lastDate w) fit).getD (i + 1) ⟨0, 0, 0, 0⟩ = _
  rw [List.getD_cons_succ]
  push_neg at hlen
  exact forecastRows_getD (lastDate w) fit i hi hlen.1 hlen.2

theorem w4dec_sel : selectModel oerr (nonzeroCleaned w4dec 0) 0 4 =
    some (⟨[1, 1, 1, 1], [1, 1, 1, 1], [1, 1, 1, 1]⟩, "Linear Baseline",
      some .LOW) := by
  have hys : nonzeroCleaned w4dec 0 = [1, 1, 1, 1] := by
    norm_num [nonzeroCleaned, cleanedValues, detect_and_handle_anomalies,
      w4dec, zAnomaly, mean]
  rw [hys]
  norm_num [selectModel, ForecastConfig.SEASONAL_THRESHOLD,
    ForecastConfig.MIN_ARIMA_THRESHOLD, oerr, fit_baseline_model, clampFit,
    olsPredict, olsIntercept, olsSlope, List.range_succ]

/-- Witness for `C8_december_boost`: with the last week on 2020-12-13
(day 18609) and unit predictions, the first forecast week lands on
December 20 and is reported as `1.15`, while the third lands on
2021-01-03 and stays `1`. -/
theorem C8_witness :
    (generate_ml_forecast w4dec 4 0 0 oerr).forecast.getD 1 ⟨0, 0, 0, 0⟩ =
      { week := 18616, sales := 23/20, lower := 23/20, upper := 23/20 } ∧
    (generate_ml_forecast w4dec 4 0 0 oerr).forecast.getD 3 ⟨0, 0, 0, 0⟩ =
      { week := 18630, sales := 1, lower := 1, upper := 1 } ∧
    decBoost 18616 = true ∧ decBoost 18630 = false := by
  have hin := inner_eq w4dec 4 0 0 oerr _ _ _ (by decide) w4dec_sel (by decide)
  have h115 : roundTo 2 ((23 : ℚ)/20) = 23/20 :=
    roundTo_of_int 2 _ 115 (by norm_num)
  have h1 : roundTo 2 (1 : ℚ) = 1 :=
    roundTo_of_int 2 _ 100 (by norm_num)
  have hld : lastDate w4dec = 18609 := by decide
  have hb0 := C8_december_boost w4dec 4 0 0 oerr _ _ _ _ w4dec_sel hin 0 (by decide)
  have hb2 := C8_december_boost w4dec 4 0 0 oerr _ _ _ _ w4dec_sel hin 2 (by decide)
  rw [hld] at hb0 hb2
  refine ⟨?_, ?_, by decide, by decide⟩
  · rw [generate_ml_forecast, hin, Option.getD_some]
    refine hb0.trans ?_
    rw [show decBoost (18609 + 7 * (0 + 1)) = true from by decide]
    simp [h115]
  · rw [generate_ml_forecast, hin, Option.getD_some]
    refine hb2.trans ?_
    rw [show decBoost (18609 + 7 * (2 + 1)) = false from by decide]
    simp [h1]

/-! ## C7: non-negativity and ordering of forecast points -/

/-- Pointwise ordering `lower ≤ point ≤ upper` of a fitter triple. -/
def tripleOrdered (f : RawFit) : Prop :=
  ∀ i, i < f.preds.length → i < f.lower.length → i < f.upper.length →
    f.lower.getD i 0 ≤ f.preds.getD i 0 ∧ f.preds.getD i 0 ≤ f.upper.getD i 0

/-- Pointwise non-negativity of a fitter triple. -/
def fitNonneg (f : RawFit) : Prop :=
  (∀ i, i < f.preds.length → 0 ≤ f.preds.getD i 0) ∧
  (∀ i, i < f.lower.length → 0 ≤ f.lower.getD i 0) ∧
  (∀ i, i < f.upper.length → 0 ≤ f.upper.getD i 0)

/-- The contract an external library's returned triple is assumed to obey:
the point prediction lies inside its own interval.  A raised exception obeys
it trivially. -/
def Outcome.wellFormed : Outcome → Prop
  | .ok r => tripleOrdered r
  | .err => True

theorem clampFit_nonneg (r : RawFit) : fitNonneg (clampFit r) := by
  refine ⟨fun i hi => ?_, fun i hi => ?_, fun i hi => ?_⟩ <;>
  · simp only [clampFit, List.length_map] at hi
    simp only [clampFit]
    rw [getD_map_of_lt _ _ _ hi]
    exact le_max_right _ _

theorem clampFit_ordered (r : RawFit) (h : tripleOrdered r) :
    tripleOrdered (clampFit r) := by
  intro i hi1 hi2 hi3
  simp only [clampFit, List.length_map] at hi1 hi2 hi3
  simp only [clampFit]
  rw [getD_map_of_lt _ _ _ hi1, getD_map_of_lt _ _ _ hi2,
    getD_map_of_lt _ _ _ hi3]
  obtain ⟨h1, h2⟩ := h i hi1 hi2 hi3
  exact ⟨max_le_max h1 le_rfl, max_le_max h2 le_rfl⟩

/-- An external fitter's output after the repository's clamping is ordered
(under the library contract) and non-negative. -/
theorem fit_oracle_good (oc : Outcome) (f : RawFit)
    (hw : Outcome.wellFormed oc) (hf : fit_prophet_model oc = some f) :
    tripleOrdered f ∧ fitNonneg f := by
  cases oc with
  | err => exact absurd hf (by simp [fit_prophet_model])
  | ok r =>
    have he : clampFit r = f :=
      Option.some_injective _ (by simpa [fit_prophet_model] using hf)
    subst he
    exact ⟨clampFit_ordered r hw, clampFit_nonneg r⟩

theorem fit_arima_eq_prophet (oc : Outcome) :
    fit_arima_model oc = fit_prophet_model oc := by
  cases oc <;> rfl

/-- The baseline fit is ordered and non-negative whenever the supplied
standard deviation is non-negative (as `np.std` always is), and its bound
lists have the same length as its predictions. -/
theorem fit_baseline_good (ys : List ℚ) (stdB : ℚ) (h : Nat) (f : RawFit)
    (hf : fit_baseline_model ys stdB h = some f) (hstd : 0 ≤ stdB) :
    tripleOrdered f ∧ fitNonneg f ∧
    f.lower.length = f.preds.length ∧ f.upper.length = f.preds.length := by
  by_cases h0 : ys.length = 0
  · simp only [fit_baseline_model, if_pos h0] at hf
    exact Option.noConfusion hf
  · simp only [fit_baseline_model, if_neg h0, Option.some.injEq] at hf
    subst hf
    refine ⟨clampFit_ordered _ ?_, clampFit_nonneg _, by simp [clampFit],
      by simp [clampFit]⟩
    intro i hi1 hi2 hi3
    simp only [List.length_map] at hi2 hi3
    rw [getD_map_of_lt _ _ _ (by simpa using hi2),
      getD_map_of_lt _ _ _ (by simpa using hi3)]
    constructor <;> nlinarith [hstd]

/-- The fit returned by model selection is ordered and non-negative, given
the library contract for the external fitters and `np.std ≥ 0`. -/
theorem selectModel_goodFit (o : Oracles) (ys : List ℚ) (stdB : ℚ) (h : Nat)
    (fit : RawFit) (name : String) (ov : Option Confidence)
    (hsel : selectModel o ys stdB h = some (fit, name, ov))
    (hp : Outcome.wellFormed o.prophet)
    (hs : Outcome.wellFormed o.sarimaxSeasonal)
    (ha : Outcome.wellFormed o.arimaNonSeasonal)
    (hstd : 0 ≤ stdB) :
    tripleOrdered fit ∧ fitNonneg fit := by
  unfold selectModel at hsel
  by_cases h52 : ForecastConfig.SEASONAL_THRESHOLD ≤ ys.length
  · rw [if_pos h52] at hsel
    rcases hf1 : fit_prophet_model o.prophet with _ | r1
    · simp only [hf1] at hsel
      rcases hf2 : fit_arima_model o.sarimaxSeasonal with _ | r2
      · simp only [hf2] at hsel
        rcases hf3 : fit_arima_model o.arimaNonSeasonal with _ | r3
        · simp only [hf3] at hsel
          rcases hf4 : fit_baseline_model ys stdB h with _ | r4
          · simp only [hf4] at hsel
            exact Option.noConfusion hsel
          · simp only [hf4, Option.some.injEq, Prod.mk.injEq] at hsel
            obtain ⟨hfit, -, -⟩ := hsel
            subst hfit
            obtain ⟨ho, hn, -, -⟩ := fit_baseline_good ys stdB h r4 hf4 hstd
            exact ⟨ho, hn⟩
        · simp only [hf3, Option.some.injEq, Prod.mk.injEq] at hsel
          obtain ⟨hfit, -, -⟩ := hsel
          subst hfit
          exact fit_oracle_good o.arimaNonSeasonal r3 ha
            ((fit_arima_eq_prophet o.arimaNonSeasonal) ▸ hf3)
      · simp only [hf2, Option.some.injEq, Prod.mk.injEq] at hsel
        obtain ⟨hfit, -, -⟩ := hsel
        subst hfit
        exact fit_oracle_good o.sarimaxSeasonal r2 hs
          ((fit_arima_eq_prophet o.sarimaxSeasonal) ▸ hf2)
    · simp only [hf1, Option.some.injEq, Prod.mk.injEq] at hsel
      obtain ⟨hfit, -, -⟩ := hsel
      subst hfit
      exact fit_oracle_good o.prophet r1 hp hf1
  · rw [if_neg h52] at hsel
    by_cases h16 : ForecastConfig.MIN_ARIMA_THRESHOLD ≤ ys.length
    · rw [if_pos h16] at hsel
      rcases hf3 : fit_arima_model o.arimaNonSeasonal with _ | r3
      · simp only [hf3] at hsel
        rcases hf4 : fit_baseline_model ys stdB h with _ | r4
        · simp only [hf4] at hsel
          exact Option.noConfusion hsel
        · simp only [hf4, Option.some.injEq, Prod.mk.injEq] at hsel
          obtain ⟨hfit, -, -⟩ := hsel
          subst hfit
          obtain ⟨ho, hn, -, -⟩ := fit_baseline_good ys stdB h r4 hf4 hstd
          exact ⟨ho, hn⟩
      · simp only [hf3, Option.some.injEq, Prod.mk.injEq] at hsel
        obtain ⟨hfit, -, -⟩ := hsel
        subst hfit
        exact fit_oracle_good o.arimaNonSeasonal r3 ha
          ((fit_arima_eq_prophet o.arimaNonSeasonal) ▸ hf3)
    · rw [if_neg h16] at hsel
      rcases hf4 : fit_baseline_model ys stdB h with _ | r4
      · simp only [hf4] at hsel
        exact Option.noConfusion hsel
      · simp only [hf4, Option.some.injEq, Prod.mk.injEq] at hsel
        obtain ⟨hfit, -, -⟩ := hsel
        subst hfit
        obtain ⟨ho, hn, -, -⟩ := fit_baseline_good ys stdB h r4 hf4 hstd
        exact ⟨ho, hn⟩

theorem forecastRows_length (ld : Nat) (f : RawFit) :
    (forecastRows ld f).length =
      min f.preds.length (min f.lower.length f.upper.length) := by
  simp [forecastRows, List.length_zip]

/-- The last positive raw value (or its 0 default) is non-negative. -/
theorem lastActualValue_nonneg (w : Weekly) : 0 ≤ lastActualValue w := by
  rcases hl : (w.filter (fun row => 0 < row.value)).getLast? with _ | row
  · rw [lastActualValue, hl]
    simp
  · rw [lastActualValue, hl]
    have hmem : row ∈ w.filter (fun row => 0 < row.value) := by
      have hrow : row ∈ (w.filter (fun row => 0 < row.value)).getLast? := by
        rw [hl]
        rfl
      obtain ⟨hne, heq⟩ := List.mem_getLast?_eq_getLast hrow
      rw [heq]
      exact List.getLast_mem hne
    have hpos : 0 < row.value := by
      simpa using (List.mem_filter.mp hmem).2
    simpa using le_of_lt hpos

/-- C7.  Every entry of the returned forecast array — the connector point
and all horizon points, under every model in the chain — satisfies
`sales ≥ 0`, `lower ≥ 0`, `upper ≥ 0` and `lower ≤ sales ≤ upper`,
provided the external fitters' raw triples obey their interval contract
(`Outcome.wellFormed`); the baseline needs no such hypothesis beyond
`np.std ≥ 0`. -/
theorem C7_point_bounds (w : Weekly) (horizon : Nat) (stdA stdB : ℚ)
    (o : Oracles)
    (hp : Outcome.wellFormed o.prophet)
    (hs : Outcome.wellFormed o.sarimaxSeasonal)
    (ha : Outcome.wellFormed o.arimaNonSeasonal)
    (hstd : 0 ≤ stdB) :
    ∀ pt ∈ (generate_ml_forecast w horizon stdA stdB o).forecast,
      0 ≤ pt.sales ∧ 0 ≤ pt.lower ∧ 0 ≤ pt.upper ∧
      pt.lower ≤ pt.sales ∧ pt.sales ≤ pt.upper := by
  intro pt hpt
  rcases hin : generate_ml_forecast_inner w horizon stdA stdB o with _ | r
  · rw [generate_ml_forecast, hin] at hpt
    simp [fallbackResult] at hpt
  · rw [generate_ml_forecast, hin, Option.getD_some] at hpt
    obtain ⟨fit, name, ov, -, hsel, hlen, hrec⟩ :=
      inner_inv w horizon stdA stdB o r hin
    rw [hrec] at hpt
    have hla : 0 ≤ roundTo 2 (lastActualValue w) :=
      roundTo_nonneg 2 (lastActualValue_nonneg w)
    rcases List.mem_cons.mp hpt with rfl | hmem
    · exact ⟨hla, hla, hla, le_rfl, le_rfl⟩
    · push_neg at hlen
      obtain ⟨hl, hu⟩ := hlen
      obtain ⟨i, hi, hget⟩ := List.mem_iff_getElem.mp hmem
      have hig : i < fit.preds.length := by
        rw [forecastRows_length] at hi
        omega
      have hpt2 : pt = (forecastRows (lastDate w) fit).getD i ⟨0, 0, 0, 0⟩ := by
        rw [List.getD_eq_getElem _ _ hi, hget]
      rw [hpt2, forecastRows_getD (lastDate w) fit i hig hl hu]
      obtain ⟨hord, hnn⟩ :=
        selectModel_goodFit o (nonzeroCleaned w stdA) stdB horizon fit name ov
          hsel hp hs ha hstd
      obtain ⟨hordl, hordu⟩ := hord i hig (by omega) (by omega)
      have hc : (0 : ℚ) ≤
          (if decBoost (lastDate w + 7 * (i + 1)) then (23 : ℚ)/20 else 1) := by
        split_ifs <;> norm_num
      have hsn : 0 ≤ fit.preds.getD i 0 := hnn.1 i hig
      have hln : 0 ≤ fit.lower.getD i 0 := hnn.2.1 i (by omega)
      have hun : 0 ≤ fit.upper.getD i 0 := hnn.2.2 i (by omega)
      refine ⟨roundTo_nonneg 2 (mul_nonneg hc hsn),
        roundTo_nonneg 2 (mul_nonneg hc hln),
        roundTo_nonneg 2 (mul_nonneg hc hun),
        roundTo_mono 2 (mul_le_mul_of_nonneg_left hordl hc),
        roundTo_mono 2 (mul_le_mul_of_nonneg_left hordu hc)⟩

theorem w4_sel : selectModel oerr (nonzeroCleaned w4 0) 0 4 =
    some (⟨[1, 1, 1, 1], [1, 1, 1, 1], [1, 1, 1, 1]⟩, "Linear Baseline",
      some .LOW) := by
  have hys : nonzeroCleaned w4 0 = [1, 1, 1, 1] := by
    norm_num [nonzeroCleaned, cleanedValues, detect_and_handle_anomalies, w4,
      zAnomaly, mean]
  rw [hys]
  norm_num [selectModel, ForecastConfig.SEASONAL_THRESHOLD,
    ForecastConfig.MIN_ARIMA_THRESHOLD, oerr, fit_baseline_model, clampFit,
    olsPredict, olsIntercept, olsSlope, List.range_succ]

/-- Witness for `C7_point_bounds`: the first forecast entry of a concrete
successful run satisfies all five inequalities. -/
theorem C7_witness :
    0 ≤ ((generate_ml_forecast w4 4 0 0 oerr).forecast.getD 0 ⟨0, 0, 0, 0⟩).sales ∧
    0 ≤ ((generate_ml_forecast w4 4 0 0 oerr).forecast.getD 0 ⟨0, 0, 0, 0⟩).lower ∧
    0 ≤ ((generate_ml_forecast w4 4 0 0 oerr).forecast.getD 0 ⟨0, 0, 0, 0⟩).upper ∧
    ((generate_ml_forecast w4 4 0 0 oerr).forecast.getD 0 ⟨0, 0, 0, 0⟩).lower ≤
      ((generate_ml_forecast w4 4 0 0 oerr).forecast.getD 0 ⟨0, 0, 0, 0⟩).sales ∧
    ((generate_ml_forecast w4 4 0 0 oerr).forecast.getD 0 ⟨0, 0, 0, 0⟩).sales ≤
      ((generate_ml_forecast w4 4 0 0 oerr).forecast.getD 0 ⟨0, 0, 0, 0⟩).upper := by
  have hmem : (generate_ml_forecast w4 4 0 0 oerr).forecast.getD 0 ⟨0, 0, 0, 0⟩ ∈
      (generate_ml_forecast w4 4 0 0 oerr).forecast := by
    have hin := inner_eq w4 4 0 0 oerr _ _ _ (by decide) w4_sel (by decide)
    rw [generate_ml_forecast, hin, Option.getD_some, List.getD_cons_zero]
    exact List.mem_cons_self _ _
  exact C7_point_bounds w4 4 0 0 oerr trivial trivial trivial le_rfl _ hmem

end Forecast
